import Mathlib

/-!
Verification of the core logic of a browser-based creative studio:
the client-side video frame-sampling pipeline (`extractFrames`) and the
long-running asynchronous video-generation job poller
(`handleVideoOperation`), together with the thin API gateway helpers
(`editImage`, `analyzeImage`, `analyzeVideoFrames`).

The definitions below are a shallow embedding of the TypeScript source:
timeline positions and durations are rationals, the decode surface and
the provider transport are modelled by explicit input records, and the
side effects that matter to the specification (progress messages,
object-URL revocations, query and fetch invocations) are threaded
through the state as explicit counters and lists.
-/

namespace Studio

/-! ## Frame Sampler (`extractFrames` in the video-analysis component) -/

/-- A still frame captured from the video: the timeline position at which
the decoder was asked to seek, and the rasterized image data (the result
of drawing the video surface at that position and JPEG-encoding it). -/
structure Frame where
  capturedAt : ℚ
  data : String
  deriving Repr, DecidableEq

/-- The video input as the sampler observes it: its metadata duration, a
flag saying whether metadata decoding succeeds (`onloadedmetadata` versus
`onerror`), an optional seek index at which decoding errors out mid-loop,
and the decoded image content available at each timeline position. -/
structure VideoInput where
  duration : ℚ
  metadataOk : Bool
  failAtSeek : Option ℕ
  frameAt : ℚ → String

/-- Everything observable about one run of `extractFrames`: the promise
outcome (frame list or rejection message), the emitted progress updates
as (numerator, denominator) pairs of the `frameCount/min(maxFrames,
floor(duration))` message, and how many times the temporary object URL
was revoked. -/
structure ExtractOutput where
  result : Except String (List Frame)
  progressEvents : List (ℕ × ℤ)
  revokes : ℕ

/-- The `captureFrame`/`onseeked` mutual loop of `extractFrames`: while
the current time is before the duration and fewer than `maxFrames` frames
have been captured, seek, rasterize, push the JPEG, bump the counter,
emit a progress update, and advance the clock by `interval`; on exit
revoke the object URL and resolve. A decode error at seek `failAtSeek`
revokes and rejects instead. -/
def captureLoop (v : VideoInput) (interval : ℚ) (maxFrames : ℕ)
    (currentTime : ℚ) (frameCount : ℕ) (frames : List Frame)
    (progress : List (ℕ × ℤ)) (revokes : ℕ) : ExtractOutput :=
  if currentTime ≥ v.duration ∨ frameCount ≥ maxFrames then
    ⟨.ok frames, progress, revokes + 1⟩
  else if v.failAtSeek = some frameCount then
    ⟨.error "Error loading video file.", progress, revokes + 1⟩
  else
    captureLoop v interval maxFrames (currentTime + interval) (frameCount + 1)
      (frames ++ [⟨currentTime, v.frameAt currentTime⟩])
      (progress ++ [(frameCount + 1, min (maxFrames : ℤ) ⌊v.duration⌋)])
      revokes
termination_by maxFrames - frameCount
decreasing_by
  rename_i h _
  push_neg at h
  omega

/-- The `extractFrames` entry point, for an execution that has created the
object URL and attached the handlers: if metadata loads, run the capture
loop with the hard-coded policy `interval = 1`, `maxFrames = 16`;
otherwise `onerror` fires, which revokes the URL once and rejects. -/
def extractFrames (v : VideoInput) : ExtractOutput :=
  if v.metadataOk then captureLoop v 1 16 0 0 [] [] 0
  else ⟨.error "Error loading video file.", [], 1⟩

/-- The frame-count guard in `handleSubmit` of the video-analysis
component: a successful extraction with zero frames is turned into a
failure before any analysis request is made. -/
def analyzeSubmit (v : VideoInput) : Except String (List Frame) :=
  match (extractFrames v).result with
  | .error e => .error e
  | .ok frames =>
      if frames.length = 0 then
        .error "Could not extract any frames from the video."
      else
        .ok frames

/-- Number of frames the loop captures from counter position `fc` with cap
`m`: it keeps going while the clock (equal to the counter, since the
interval is 1) is below the duration and the counter is below the cap. -/
def sampleCount (v : VideoInput) (m fc : ℕ) : ℕ :=
  min (m - fc) ((⌈v.duration⌉ - fc).toNat)

/-- The frame captured at integer timeline position `t`. -/
def frameOf (v : VideoInput) (t : ℕ) : Frame :=
  ⟨(t : ℚ), v.frameAt (t : ℚ)⟩

/-- The progress pair emitted after the frame at position `t`: numerator
is the new frame count `t + 1`, denominator is
`min(maxFrames, floor(duration))`. -/
def progressOf (v : VideoInput) (m t : ℕ) : ℕ × ℤ :=
  (t + 1, min (m : ℤ) ⌊v.duration⌋)

/-! ## Async Job Poller (`handleVideoOperation` in `geminiService.ts`) -/

/-- A long-running-operation handle as the poller observes it: the `done`
flag, the optional error object (carrying the provider's message), and
the optional download URI reached through
`operation.response?.generatedVideos?.[0]?.video?.uri`. -/
structure Operation where
  done : Bool
  error : Option String
  uri : Option String
  deriving Repr, DecidableEq

/-- The poller's environment: the operation returned by the initial
`getOperation()` call, the stream of operations returned by successive
`getVideosOperation` status queries, and the outcome of the final
authenticated `fetch` of the download link (`ok` flag, status text, body
text, and the object URL created from the downloaded blob). -/
structure PollerEnv where
  initialOp : Operation
  queries : ℕ → Operation
  fetchOk : Bool
  fetchStatusText : String
  fetchBody : String
  blobUrl : String

/-- Everything observable about one run of `handleVideoOperation`: the
returned object URL or the thrown error message, how many status queries
were issued, how many times the download fetch was invoked, and the
progress messages in order. -/
structure PollerTrace where
  result : Except String String
  queryCount : ℕ
  fetchCount : ℕ
  progress : List String

/-- The `while (!operation.done)` loop: each iteration waits 10 seconds,
emits a status progress message, and replaces the operation with the next
query result. `fuel` bounds the number of iterations the embedding will
unfold; `none` means the loop was still running after `fuel` queries. -/
def pollLoop (env : PollerEnv) (fuel idx : ℕ) (op : Operation) (msgs : List String) :
    Option (ℕ × Operation × List String) :=
  if op.done then some (idx, op, msgs)
  else
    match fuel with
    | 0 => none
    | fuel + 1 =>
        pollLoop env fuel (idx + 1) (env.queries idx)
          (msgs ++ ["Checking video status..."])

/-- What `handleVideoOperation` does once the loop has exited with a done
operation: check `operation.error`, then extract and truthiness-test the
download link, then fetch it and either return the blob object URL or
throw with the transport status and body. -/
def resolveOperation (env : PollerEnv) (op : Operation) (queryCount : ℕ)
    (msgs : List String) : PollerTrace :=
  match op.error with
  | some e => ⟨.error ("Video generation failed: " ++ e), queryCount, 0, msgs⟩
  | none =>
      match op.uri with
      | none => ⟨.error "Could not retrieve video download link.", queryCount, 0, msgs⟩
      | some u =>
          if u = "" then
            ⟨.error "Could not retrieve video download link.", queryCount, 0, msgs⟩
          else if env.fetchOk then
            ⟨.ok env.blobUrl, queryCount, 1,
             msgs ++ ["Video generated! Downloading video data...", "Download complete."]⟩
          else
            ⟨.error ("Failed to download video: " ++ env.fetchStatusText ++
                ". Details: " ++ env.fetchBody), queryCount, 1,
             msgs ++ ["Video generated! Downloading video data..."]⟩

/-- The two progress messages emitted before the poll loop starts. -/
def startMsgs : List String :=
  ["Starting video generation operation...",
   "Operation initiated. Waiting for video to be processed. This can take several minutes."]

/-- The `handleVideoOperation` entry point: emit the two startup
messages, run the poll loop from the submitted operation, then resolve
the terminal operation. `none` means the fuel ran out while the job was
still not done. -/
def handleVideoOperation (env : PollerEnv) (fuel : ℕ) : Option PollerTrace :=
  match pollLoop env fuel 0 env.initialOp startMsgs with
  | none => none
  | some (qc, op, msgs) => some (resolveOperation env op qc msgs)

/-! ## API Gateway helpers (`editImage`, `analyzeImage`, `analyzeVideoFrames`) -/

/-- The inline payload of a response part: base64 data plus the MIME type
the provider reports. -/
structure InlineData where
  data : String
  mimeType : String
  deriving Repr, DecidableEq

/-- One part of the first candidate's content in a `generateContent`
response. -/
structure RespPart where
  inlineData : Option InlineData
  deriving Repr, DecidableEq

/-- The `for (const part of ...parts)` scan in `editImage`: the first
part carrying inline data, if any. -/
def firstInlineData : List RespPart → Option InlineData
  | [] => none
  | p :: ps =>
      match p.inlineData with
      | some d => some d
      | none => firstInlineData ps

/-- The result-shaping logic of `editImage`: return the first inline
payload as a PNG data URI (the prefix is hard-coded, the reported MIME
type is ignored), or throw "No image generated" when no part carries
inline data. -/
def editImage (parts : List RespPart) : Except String String :=
  match firstInlineData parts with
  | some d => .ok ("data:image/png;base64," ++ d.data)
  | none => .error "No image generated"

/-- Replace the reported MIME type of a response part, leaving the data
untouched; used to state that `editImage` ignores the MIME type. -/
def withMime (m : String) (p : RespPart) : RespPart :=
  ⟨p.inlineData.map (fun d => ⟨d.data, m⟩)⟩

/-- One part of an outgoing `generateContent` request. -/
inductive ReqPart where
  | text (s : String)
  | inline (data mimeType : String)
  deriving Repr, DecidableEq

/-- An outgoing `generateContent` request: target model and content
parts. -/
structure GenRequest where
  model : String
  parts : List ReqPart
  deriving Repr, DecidableEq

/-- A user-selected file as the gateway sees it: its base64-encoded bytes
(the `fileToBase64` result) and its MIME type. -/
structure JSFile where
  base64Data : String
  type : String
  deriving Repr, DecidableEq

/-- The `fileToGenerativePart` helper: wrap a file's base64 bytes and
MIME type as an inline request part. -/
def fileToGenerativePart (f : JSFile) : ReqPart :=
  .inline f.base64Data f.type

/-- The request built by `analyzeImage`: an empty prompt falls back to
the built-in default (JavaScript `prompt || default`), and the text part
precedes the image part. -/
def analyzeImageRequest (prompt : String) (f : JSFile) : GenRequest :=
  ⟨"gemini-2.5-flash",
   [.text (if prompt = "" then "Analyze this image in detail." else prompt),
    fileToGenerativePart f]⟩

/-- The request built by `analyzeVideoFrames`: an empty prompt falls back
to the built-in default, and each frame data URI is split on the comma
with the base64 payload sent as an inline JPEG part. -/
def analyzeVideoFramesRequest (prompt : String) (frames : List String) : GenRequest :=
  ⟨"gemini-2.5-pro",
   .text (if prompt = "" then
      "These are sequential frames from a video. Analyze the video and describe what is happening."
    else prompt)
   :: frames.map (fun frameData => .inline ((frameData.splitOn ",").getD 1 "") "image/jpeg")⟩

/-! ## Concrete inputs used by witnesses and counterexamples -/

/-- A decodable 3.4-second video with no mid-loop decode error. -/
def v34 : VideoInput := ⟨17/5, true, none, fun _ => "frame-data"⟩

/-- A decodable zero-duration video. -/
def vZero : VideoInput := ⟨0, true, none, fun _ => "frame-data"⟩

/-- A video whose metadata cannot be decoded. -/
def vBad : VideoInput := ⟨5, false, none, fun _ => "frame-data"⟩

/-- The four frames `extractFrames` captures from `v34`. -/
def fs34 : List Frame := (List.range 4).map (frameOf v34)

/-- The four progress pairs `extractFrames` emits for `v34`. -/
def prog34 : List (ℕ × ℤ) := (List.range 4).map (progressOf v34 16)

/-- A poller environment whose job completes on the third status query
with a valid download link and a successful fetch. -/
def envGood : PollerEnv :=
  ⟨⟨false, none, none⟩,
   fun n => if n < 2 then ⟨false, none, none⟩
     else ⟨true, none, some "https://dl.example/v.mp4"⟩,
   true, "OK", "", "blob:https://app/final"⟩

/-- A poller environment whose submitted operation is already done and
carries a provider error. -/
def envFailed : PollerEnv :=
  ⟨⟨true, some "quota exceeded", none⟩, fun _ => ⟨true, none, none⟩,
   true, "OK", "", "blob:x"⟩

/-- A poller environment whose submitted operation is done with neither
an error nor a download link. -/
def envMissing : PollerEnv :=
  ⟨⟨true, none, none⟩, fun _ => ⟨true, none, none⟩, true, "OK", "", "blob:x"⟩

/-! ## Helper lemmas about the capture loop -/

theorem range_succ_shift {α : Type} (k : ℕ) (f : ℕ → α) :
    (List.range (k+1)).map f = f 0 :: (List.range k).map (fun j => f (j+1)) := by
  rw [List.range_succ_eq_map, List.map_cons, List.map_map]
  rfl

/-- Closed form of the capture loop for the hard-coded interval 1 when no
mid-loop decode error occurs: starting with the clock at counter value
`fc` it appends exactly `sampleCount v m fc` frames captured at
consecutive integer positions, emits the matching progress pairs, and
revokes the object URL once on exit. -/
theorem captureLoop_run (v : VideoInput) (hf : v.failAtSeek = none) (m : ℕ) :
    ∀ k fc frames progress r, m - fc ≤ k →
      captureLoop v 1 m (fc : ℚ) fc frames progress r =
        ⟨.ok (frames ++ (List.range (sampleCount v m fc)).map (fun j => frameOf v (fc + j))),
         progress ++ (List.range (sampleCount v m fc)).map (fun j => progressOf v m (fc + j)),
         r + 1⟩ := by
  intro k
  induction k with
  | zero =>
    intro fc frames progress r hk
    have hfc : fc ≥ m := by omega
    rw [captureLoop, if_pos (Or.inr hfc)]
    have hn : sampleCount v m fc = 0 := by
      unfold sampleCount; omega
    simp [hn]
  | succ k ih =>
    intro fc frames progress r hk
    by_cases hstop : (fc : ℚ) ≥ v.duration ∨ fc ≥ m
    · rw [captureLoop, if_pos hstop]
      have hn : sampleCount v m fc = 0 := by
        unfold sampleCount
        rcases hstop with h | h
        · have hceil : ⌈v.duration⌉ ≤ (fc : ℤ) := Int.ceil_le.mpr (by exact_mod_cast h)
          omega
        · omega
      simp [hn]
    · push_neg at hstop
      obtain ⟨h1, h2⟩ := hstop
      have hceil : (fc : ℤ) < ⌈v.duration⌉ := Int.lt_ceil.mpr (by exact_mod_cast h1)
      rw [captureLoop, if_neg (by push_neg; exact ⟨h1, h2⟩)]
      rw [if_neg (by simp [hf])]
      have hcast : (fc : ℚ) + 1 = ((fc + 1 : ℕ) : ℚ) := by push_cast; ring
      rw [hcast]
      rw [ih (fc + 1) _ _ r (by omega)]
      have hn : sampleCount v m fc = sampleCount v m (fc + 1) + 1 := by
        unfold sampleCount; omega
      rw [hn]
      rw [range_succ_shift (sampleCount v m (fc+1)) (fun j => frameOf v (fc + j))]
      rw [range_succ_shift (sampleCount v m (fc+1)) (fun j => progressOf v m (fc + j))]
      have hg : (fun j => frameOf v (fc + (j+1))) = (fun j => frameOf v (fc + 1 + j)) := by
        funext j; congr 1; omega
      have hp : (fun j => progressOf v m (fc + (j+1))) = (fun j => progressOf v m (fc + 1 + j)) := by
        funext j; congr 1; omega
      simp only [hg, hp]
      simp [frameOf, progressOf]

/-- The complete run of `extractFrames` on a decodable video with no
mid-loop error, in closed form. -/
theorem extractFrames_run (v : VideoInput) (hm : v.metadataOk = true)
    (hf : v.failAtSeek = none) :
    extractFrames v =
      ⟨.ok ((List.range (sampleCount v 16 0)).map (frameOf v)),
       (List.range (sampleCount v 16 0)).map (progressOf v 16), 1⟩ := by
  unfold extractFrames
  rw [if_pos hm]
  have h0 : (0 : ℚ) = ((0 : ℕ) : ℚ) := by norm_num
  rw [h0, captureLoop_run v hf 16 16 0 [] [] 0 (by omega)]
  simp

/-- The loop revokes the object URL exactly once no matter how it exits. -/
theorem captureLoop_revokes (v : VideoInput) (i : ℚ) (m : ℕ) :
    ∀ k t fc frames progress r, m - fc ≤ k →
      (captureLoop v i m t fc frames progress r).revokes = r + 1 := by
  intro k
  induction k with
  | zero =>
    intro t fc frames progress r hk
    rw [captureLoop, if_pos (Or.inr (by omega))]
  | succ k ih =>
    intro t fc frames progress r hk
    rw [captureLoop]
    by_cases h1 : t ≥ v.duration ∨ fc ≥ m
    · rw [if_pos h1]
    · rw [if_neg h1]
      by_cases h2 : v.failAtSeek = some fc
      · rw [if_pos h2]
      · rw [if_neg h2]
        exact ih _ _ _ _ _ (by push_neg at h1; omega)

/-- Whatever the interval and the video, a successful loop never returns
more frames than the accumulator plus the remaining frame budget. -/
theorem captureLoop_length_le (v : VideoInput) (i : ℚ) (m : ℕ) :
    ∀ k t fc frames progress r fs, m - fc ≤ k →
      (captureLoop v i m t fc frames progress r).result = .ok fs →
      fs.length ≤ frames.length + (m - fc) := by
  intro k
  induction k with
  | zero =>
    intro t fc frames progress r fs hk hok
    rw [captureLoop, if_pos (Or.inr (by omega))] at hok
    simp at hok
    subst hok
    omega
  | succ k ih =>
    intro t fc frames progress r fs hk hok
    rw [captureLoop] at hok
    by_cases h1 : t ≥ v.duration ∨ fc ≥ m
    · rw [if_pos h1] at hok
      simp at hok
      subst hok
      omega
    · rw [if_neg h1] at hok
      push_neg at h1
      obtain ⟨h1a, h1b⟩ := h1
      by_cases h2 : v.failAtSeek = some fc
      · rw [if_pos h2] at hok
        simp at hok
      · rw [if_neg h2] at hok
        have := ih _ _ _ _ _ _ (by omega) hok
        simp at this
        omega

/-! ## Helper lemmas about the poll loop and the concrete 3.4-second video -/

/-- Running the poll loop when the current handle is not done, the next n
queries (from index `idx`) are not done, and query `idx + n` is done: it
exits after `n + 1` further queries on exactly that handle, having
emitted one status message per query. -/
theorem pollLoop_run (env : PollerEnv) :
    ∀ n idx op msgs fuel,
      op.done = false →
      (∀ j, j < n → (env.queries (idx + j)).done = false) →
      (env.queries (idx + n)).done = true →
      n + 1 ≤ fuel →
      pollLoop env fuel idx op msgs =
        some (idx + n + 1, env.queries (idx + n),
              msgs ++ List.replicate (n + 1) "Checking video status...") := by
  intro n
  induction n with
  | zero =>
    intro idx op msgs fuel h0 hq hk hfuel
    match fuel, hfuel with
    | fuel + 1, _ =>
      rw [pollLoop.eq_def, if_neg (by simp [h0])]
      show pollLoop env fuel (idx + 1) (env.queries idx)
        (msgs ++ ["Checking video status..."]) = _
      rw [pollLoop.eq_def, if_pos (by simpa using hk)]
      simp
  | succ n ih =>
    intro idx op msgs fuel h0 hq hk hfuel
    match fuel, hfuel with
    | fuel + 1, hfuel =>
      rw [pollLoop.eq_def, if_neg (by simp [h0])]
      show pollLoop env fuel (idx + 1) (env.queries idx)
        (msgs ++ ["Checking video status..."]) = _
      have hstep := ih (idx + 1) (env.queries idx)
        (msgs ++ ["Checking video status..."]) fuel
        (by simpa using hq 0 (by omega))
        (by intro j hj
            have := hq (j + 1) (by omega)
            simpa [Nat.add_assoc, Nat.add_comm 1 j] using this)
        (by have := hk
            simpa [Nat.add_assoc, Nat.add_comm 1 n] using this)
        (by omega)
      rw [hstep]
      have h1 : idx + 1 + n = idx + (n + 1) := by omega
      rw [h1]
      simp [List.replicate_succ, List.append_assoc]

/-- The ceiling of the 3.4-second duration is 4. -/
theorem v34_ceil : ⌈v34.duration⌉ = 4 := by
  rw [show v34.duration = 17/5 from rfl, Int.ceil_eq_iff]
  norm_num

/-- The sampler captures 4 frames from the 3.4-second video. -/
theorem v34_sampleCount : sampleCount v34 16 0 = 4 := by
  unfold sampleCount
  rw [v34_ceil]
  rfl

/-- The full run of `extractFrames` on the 3.4-second video. -/
theorem v34_run : extractFrames v34 = ⟨.ok fs34, prog34, 1⟩ := by
  rw [extractFrames_run v34 rfl rfl, v34_sampleCount]
  rfl

/-! ## Claim theorems -/

/-- C1: on a decodable video of positive duration with the hard-coded
policy (interval 1 second, cap 16 frames), the produced frame sequence
has length exactly min(16, ceil(duration / 1)); and for every video,
interval and cap, a successful capture loop never produces more frames
than the cap. -/
theorem extractFrames_boundedSampling (v : VideoInput)
    (hm : v.metadataOk = true) (hf : v.failAtSeek = none)
    (hd : 0 < v.duration)
    (fs : List Frame) (hok : (extractFrames v).result = .ok fs) :
    fs.length = min 16 (⌈v.duration⌉.toNat) ∧
    ∀ (w : VideoInput) (i : ℚ) (m : ℕ) (fs2 : List Frame),
      (captureLoop w i m 0 0 [] [] 0).result = .ok fs2 → fs2.length ≤ m := by
  constructor
  · rw [extractFrames_run v hm hf] at hok
    simp at hok
    subst hok
    simp [sampleCount]
  · intro w i m fs2 h
    have := captureLoop_length_le w i m m 0 0 [] [] 0 fs2 (by omega) h
    simpa using this

/-- Witness for C1: the 3.4-second video yields exactly
min(16, ceil(3.4)) = 4 frames. -/
theorem extractFrames_boundedSampling_witness :
    v34.metadataOk = true ∧ v34.failAtSeek = none ∧ (0:ℚ) < v34.duration ∧
    (extractFrames v34).result = .ok fs34 ∧
    fs34.length = min 16 (⌈v34.duration⌉.toNat) ∧ fs34.length = 4 := by
  have hok : (extractFrames v34).result = .ok fs34 := by rw [v34_run]
  have h := extractFrames_boundedSampling v34 rfl rfl (by norm_num [v34]) fs34 hok
  exact ⟨rfl, rfl, by norm_num [v34], hok, h.1, by decide⟩

/-- C2: if the submitted handle is not done, the status query returns a
not-done handle on its first k calls and a done handle with no error and
a nonempty download link on call k+1, and the download fetch succeeds,
then `handleVideoOperation` terminates within any fuel of at least k+1
iterations, issues exactly k+1 queries, fetches once, and returns the
object URL of the downloaded artifact. -/
theorem handleVideoOperation_terminates (env : PollerEnv) (k : ℕ) (u : String)
    (h0 : env.initialOp.done = false)
    (hq : ∀ j, j < k → (env.queries j).done = false)
    (hk : (env.queries k).done = true)
    (he : (env.queries k).error = none)
    (hu : (env.queries k).uri = some u)
    (hne : u ≠ "")
    (hf : env.fetchOk = true) :
    ∀ fuel, k + 1 ≤ fuel →
      handleVideoOperation env fuel =
        some ⟨.ok env.blobUrl, k + 1, 1,
          startMsgs ++ List.replicate (k + 1) "Checking video status..." ++
            ["Video generated! Downloading video data...", "Download complete."]⟩ := by
  intro fuel hfuel
  unfold handleVideoOperation
  rw [pollLoop_run env k 0 env.initialOp startMsgs fuel h0
    (by simpa using hq) (by simpa using hk) hfuel]
  simp only [Nat.zero_add]
  unfold resolveOperation
  rw [he, hu]
  simp [hne, hf]

/-- Witness for C2: a job done on the third query (k = 2) is polled
exactly 3 times and the blob URL of the fetched artifact is returned. -/
theorem handleVideoOperation_terminates_witness :
    envGood.initialOp.done = false ∧ (envGood.queries 2).done = true ∧
      handleVideoOperation envGood 5 =
        some ⟨.ok "blob:https://app/final", 3, 1,
          startMsgs ++ List.replicate 3 "Checking video status..." ++
            ["Video generated! Downloading video data...", "Download complete."]⟩ :=
  ⟨rfl, rfl,
   handleVideoOperation_terminates envGood 2 "https://dl.example/v.mp4"
     rfl (by decide) rfl rfl rfl (by decide) rfl 5 (by omega)⟩

/-- C3 counterexample: a zero-duration video with readable metadata makes
`extractFrames` resolve successfully with an empty frame sequence instead
of failing with a decode error. -/
theorem extractFrames_zeroDuration_counterexample :
    vZero.duration = 0 ∧ (extractFrames vZero).result = .ok [] := by
  have hsc : sampleCount vZero 16 0 = 0 := by
    simp [sampleCount, vZero]
  refine ⟨rfl, ?_⟩
  rw [extractFrames_run vZero rfl rfl, hsc]
  rfl

/-- C3 amended: undecodable metadata makes `extractFrames` reject with
the decode-error message, while a zero-duration decodable video makes it
resolve with an empty sequence which the submit handler then rejects with
its own no-frames message. -/
theorem extractFrames_zeroDuration_amended (v : VideoInput) :
    (v.metadataOk = false →
      (extractFrames v).result = .error "Error loading video file.") ∧
    (v.metadataOk = true → v.failAtSeek = none → v.duration = 0 →
      (extractFrames v).result = .ok [] ∧
      analyzeSubmit v = .error "Could not extract any frames from the video.") := by
  constructor
  · intro hm
    unfold extractFrames
    rw [if_neg (by simp [hm])]
  · intro hm hf hd
    have hsc : sampleCount v 16 0 = 0 := by
      simp [sampleCount, hd]
    have hrun := extractFrames_run v hm hf
    rw [hsc] at hrun
    constructor
    · rw [hrun]
      rfl
    · unfold analyzeSubmit
      rw [hrun]
      rfl

/-- Witness for the amended C3: the undecodable video rejects with the
decode error, the zero-duration video yields an empty success that the
submit handler rejects. -/
theorem extractFrames_zeroDuration_amended_witness :
    (extractFrames vBad).result = .error "Error loading video file." ∧
    (extractFrames vZero).result = .ok [] ∧
    analyzeSubmit vZero = .error "Could not extract any frames from the video." :=
  ⟨(extractFrames_zeroDuration_amended vBad).1 rfl,
   ((extractFrames_zeroDuration_amended vZero).2 rfl rfl rfl).1,
   ((extractFrames_zeroDuration_amended vZero).2 rfl rfl rfl).2⟩

/-- C4: in any run whose poll loop exits on a handle carrying an error
message, the poller fails with the job-failure message wrapping the
provider's message, and the download fetch is never invoked. -/
theorem handleVideoOperation_jobFailed (env : PollerEnv) (fuel qc : ℕ)
    (op : Operation) (msgs : List String) (x : String)
    (hpoll : pollLoop env fuel 0 env.initialOp startMsgs = some (qc, op, msgs))
    (herr : op.error = some x) :
    handleVideoOperation env fuel =
      some ⟨.error ("Video generation failed: " ++ x), qc, 0, msgs⟩ := by
  unfold handleVideoOperation
  rw [hpoll]
  unfold resolveOperation
  simp [herr]

/-- Witness for C4: a done handle with error "quota exceeded" fails with
the wrapped message and zero fetches. -/
theorem handleVideoOperation_jobFailed_witness :
    handleVideoOperation envFailed 4 =
      some ⟨.error "Video generation failed: quota exceeded", 0, 0, startMsgs⟩ :=
  handleVideoOperation_jobFailed envFailed 4 0 envFailed.initialOp startMsgs
    "quota exceeded" rfl rfl

/-- C5: in any run whose poll loop exits on a handle with no error and no
download link, the poller fails with the missing-link message, and the
download fetch is never invoked. -/
theorem handleVideoOperation_missingArtifact (env : PollerEnv) (fuel qc : ℕ)
    (op : Operation) (msgs : List String)
    (hpoll : pollLoop env fuel 0 env.initialOp startMsgs = some (qc, op, msgs))
    (herr : op.error = none) (huri : op.uri = none) :
    handleVideoOperation env fuel =
      some ⟨.error "Could not retrieve video download link.", qc, 0, msgs⟩ := by
  unfold handleVideoOperation
  rw [hpoll]
  unfold resolveOperation
  simp [herr, huri]

/-- Witness for C5: a done handle with no error and no link fails with
the missing-link message and zero fetches. -/
theorem handleVideoOperation_missingArtifact_witness :
    handleVideoOperation envMissing 4 =
      some ⟨.error "Could not retrieve video download link.", 0, 0, startMsgs⟩ :=
  handleVideoOperation_missingArtifact envMissing 4 0 envMissing.initialOp startMsgs
    rfl rfl rfl

/-- C6: on a successful run, the frame at index k was captured at
timeline position k times the 1-second interval, so capture positions are
strictly increasing in index. -/
theorem extractFrames_monotonic (v : VideoInput)
    (hm : v.metadataOk = true) (hf : v.failAtSeek = none)
    (fs : List Frame) (hok : (extractFrames v).result = .ok fs) :
    (∀ k (hk : k < fs.length), (fs.get ⟨k, hk⟩).capturedAt = (k : ℚ) * 1) ∧
    (∀ j k (hj : j < fs.length) (hk : k < fs.length), j < k →
      (fs.get ⟨j, hj⟩).capturedAt < (fs.get ⟨k, hk⟩).capturedAt) := by
  rw [extractFrames_run v hm hf] at hok
  simp at hok
  subst hok
  have hpos : ∀ k (hk : k < ((List.range (sampleCount v 16 0)).map (frameOf v)).length),
      (((List.range (sampleCount v 16 0)).map (frameOf v)).get ⟨k, hk⟩).capturedAt
        = (k : ℚ) := by
    intro k hk
    simp [frameOf]
  constructor
  · intro k hk
    rw [hpos k hk]
    ring
  · intro j k hj hk hjk
    rw [hpos j hj, hpos k hk]
    exact_mod_cast hjk

/-- Witness for C6: on the 3.4-second video, frame 2 was captured at
position 2, and frame 1 was captured strictly before frame 3. -/
theorem extractFrames_monotonic_witness :
    (extractFrames v34).result = .ok fs34 ∧
    (fs34.get ⟨2, by decide⟩).capturedAt = (2 : ℚ) * 1 ∧
    (fs34.get ⟨1, by decide⟩).capturedAt < (fs34.get ⟨3, by decide⟩).capturedAt := by
  have hok : (extractFrames v34).result = .ok fs34 := by rw [v34_run]
  have h := extractFrames_monotonic v34 rfl rfl fs34 hok
  exact ⟨hok, h.1 2 (by decide), h.2 1 3 (by decide) (by decide) (by omega)⟩

/-- C7: on a successful run there is exactly one progress event per
captured frame, the event after the (k+1)-st capture has numerator k+1,
and every denominator is min(16, floor(duration)) even when more frames
than that are captured. -/
theorem extractFrames_progressEvents (v : VideoInput)
    (hm : v.metadataOk = true) (hf : v.failAtSeek = none)
    (fs : List Frame) (hok : (extractFrames v).result = .ok fs) :
    (extractFrames v).progressEvents.length = fs.length ∧
    ∀ k (hk : k < (extractFrames v).progressEvents.length),
      (extractFrames v).progressEvents.get ⟨k, hk⟩ =
        (k + 1, min 16 ⌊v.duration⌋) := by
  have hrun := extractFrames_run v hm hf
  rw [hrun] at hok
  simp at hok
  subst hok
  rw [hrun]
  constructor
  · simp
  · intro k hk
    simp only [List.get_eq_getElem] at hk ⊢
    simp at hk
    simp [progressOf, hk]

/-- Witness for C7: the 3.4-second video gets 4 progress events, one per
frame, and the fourth reports 4/3 since the denominator is
min(16, floor(3.4)) = 3. -/
theorem extractFrames_progressEvents_witness :
    (extractFrames v34).result = .ok fs34 ∧
    (extractFrames v34).progressEvents.length = fs34.length ∧
    (extractFrames v34).progressEvents.get ⟨3, by rw [v34_run]; decide⟩ = (4, 3) := by
  have hok : (extractFrames v34).result = .ok fs34 := by rw [v34_run]
  have h := extractFrames_progressEvents v34 rfl rfl fs34 hok
  refine ⟨hok, h.1, ?_⟩
  have h3 := h.2 3 (by rw [v34_run]; decide)
  rw [h3]
  norm_num [v34]

/-- C8: every execution of `extractFrames` that reaches the
metadata-loading stage revokes the temporary object URL exactly once,
whether it ends in success, a metadata decode failure, or a mid-loop
decode failure. -/
theorem extractFrames_revokesOnce (v : VideoInput) :
    (extractFrames v).revokes = 1 := by
  unfold extractFrames
  by_cases hm : v.metadataOk
  · rw [if_pos hm]
    exact captureLoop_revokes v 1 16 16 0 0 [] [] 0 (by omega)
  · rw [if_neg hm]

/-- C9: if some response part carries inline data, `editImage` returns
the first such payload wrapped as a PNG data URI, independently of the
reported MIME type; if no part does, it fails with "No image generated". -/
theorem editImage_firstInline (parts : List RespPart) :
    (∀ d, firstInlineData parts = some d →
      editImage parts = .ok ("data:image/png;base64," ++ d.data)) ∧
    (firstInlineData parts = none →
      editImage parts = .error "No image generated") ∧
    (∀ m, editImage (parts.map (withMime m)) = editImage parts) := by
  refine ⟨?_, ?_, ?_⟩
  · intro d h
    unfold editImage
    rw [h]
  · intro h
    unfold editImage
    rw [h]
  · intro m
    have hmap : firstInlineData (parts.map (withMime m)) =
        (firstInlineData parts).map (fun d => ⟨d.data, m⟩) := by
      induction parts with
      | nil => rfl
      | cons p ps ih =>
        cases hp : p.inlineData with
        | none => simp [firstInlineData, withMime, hp, ih]
        | some d => simp [firstInlineData, withMime, hp]
    unfold editImage
    rw [hmap]
    cases firstInlineData parts with
    | none => rfl
    | some d => rfl

/-- Witness for C9: a WebP payload comes back as a PNG data URI, an
all-text response fails with "No image generated", and rewriting every
MIME type leaves the result unchanged. -/
theorem editImage_firstInline_witness :
    editImage [⟨none⟩, ⟨some ⟨"QUJD", "image/webp"⟩⟩] = .ok "data:image/png;base64,QUJD" ∧
    editImage [⟨none⟩, ⟨none⟩] = .error "No image generated" ∧
    editImage ([⟨none⟩, ⟨some ⟨"QUJD", "image/webp"⟩⟩].map (withMime "image/gif")) =
      editImage [⟨none⟩, ⟨some ⟨"QUJD", "image/webp"⟩⟩] :=
  ⟨(editImage_firstInline [⟨none⟩, ⟨some ⟨"QUJD", "image/webp"⟩⟩]).1
      ⟨"QUJD", "image/webp"⟩ rfl,
   (editImage_firstInline [⟨none⟩, ⟨none⟩]).2.1 rfl,
   (editImage_firstInline [⟨none⟩, ⟨some ⟨"QUJD", "image/webp"⟩⟩]).2.2 "image/gif"⟩

/-- C10: for any image file and frame list, an empty prompt builds
exactly the same analysis request as the respective built-in default
prompt, for both the single-image and the frame-sequence analyzers. -/
theorem analyze_emptyPrompt_default (f : JSFile) (frames : List String) :
    analyzeImageRequest "" f = analyzeImageRequest "Analyze this image in detail." f ∧
    analyzeVideoFramesRequest "" frames =
      analyzeVideoFramesRequest
        "These are sequential frames from a video. Analyze the video and describe what is happening."
        frames := by
  constructor
  · unfold analyzeImageRequest
    norm_num
  · unfold analyzeVideoFramesRequest
    norm_num

end Studio
